import Mathlib

/-!
Verification development for the dat-file-filter repository.

The Python sources under `src/dat_file_filter/` are shallowly embedded:
`stem_info.py`'s bracket tokenizer, `metadata.py`'s tag grammar and entity
model, and `parse.py`'s catalog ingestion and best-English-version selector.
Strings are processed as `List Char`; Python exceptions become an explicit
error type; the regular expressions of `metadata.py` are realized as
hand-written recognizers that follow each pattern's branch order, greediness
and capture-group behaviour.  Character classes follow the ASCII reading of
the patterns (`\s`, `[A-Z]` with IGNORECASE, `\d`), which is exact for every
input considered here.
-/

set_option maxRecDepth 20000
set_option linter.unusedVariables false

namespace DatFileFilter

/-- Python exceptions raised by the embedded code, kept distinct so the
error site is visible in theorems.  The first four are the `ValueError`s of
`StemInfo.from_stem`; `multipleTags` and `conflictingValues` are the two
`ValueError`s of `TagMatcher.__call__`; `attributeNone` is the
`AttributeError` from calling `.lower()` on an absent regex group;
`invalidDate` is `datetime.date`'s `ValueError`; `blankTag` is the
`RuntimeError` of `Metadata.from_stem`; the rest are the `ValueError`s of
`DatFile.__init__`. -/
inductive Err where
  | nestedGroups
  | groupClosedNoneOpen
  | mismatchedClose
  | unterminatedGroup
  | multipleTags
  | conflictingValues
  | attributeNone
  | invalidDate
  | blankTag
  | descriptionMismatch
  | duplicateStem
  | duplicateId
  | missingIdForClone
  deriving DecidableEq, Repr

/-- Whitespace in the sense of Python's `\s` (ASCII part): space, tab,
newline, carriage return, vertical tab, form feed. -/
def isWs (c : Char) : Bool :=
  c = ' ' || c = '\t' || c = '\n' || c = '\r' || c.val = 11 || c.val = 12

/-- The tokenizer's separator class `[\s_]`: whitespace or underscore. -/
def isSep (c : Char) : Bool :=
  isWs c || c = '_'

def isDigitCh (c : Char) : Bool :=
  '0' ≤ c && c ≤ '9'

def isAsciiAlpha (c : Char) : Bool :=
  ('a' ≤ c && c ≤ 'z') || ('A' ≤ c && c ≤ 'Z')

/-- ASCII lowering, as applied by `str.lower()` / `re.IGNORECASE` on the
ASCII letters that all the patterns use. -/
def lcChar (c : Char) : Char :=
  if 'A' ≤ c ∧ c ≤ 'Z' then Char.ofNat (c.toNat + 32) else c

def lcL (cs : List Char) : List Char :=
  cs.map lcChar

/-- `a.startswith b` on char lists. -/
def hasPre : List Char → List Char → Bool
  | _, [] => true
  | [], _ :: _ => false
  | c :: cs, p :: ps => c = p && hasPre cs ps

/-- `a.endswith b` on char lists. -/
def hasSuf (cs suf : List Char) : Bool :=
  hasPre cs.reverse suf.reverse

/-- Membership test mirroring Python's `in` over a set, on a list model. -/
def memB {α : Type} [DecidableEq α] (x : α) : List α → Bool
  | [] => false
  | y :: ys => x = y || memB x ys

theorem memB_iff {α : Type} [DecidableEq α] (x : α) (l : List α) :
    memB x l = true ↔ x ∈ l := by
  induction l with
  | nil => simp [memB]
  | cons y ys ih =>
    by_cases h : x = y
    · simp [memB, h]
    · simp [memB, h, ih]

/-- Python `set.add` modelled on lists: insert only when absent, so list
membership coincides with set membership. -/
def addIfNew {α : Type} [DecidableEq α] (l : List α) (x : α) : List α :=
  if memB x l then l else l ++ [x]

/-! ## Tokenizer (`stem_info.py`, `StemInfo.from_stem`)

`_TOKEN_RE` (after the `.replace` calls) is
`[\s_]*((?P<open>\[|\((?!\^\^;))|(?P<close>[)\]]))[\s_]*|[\s_]+`.
Scanning a stem with `finditer` therefore partitions it into maximal runs of
characters that are neither separators nor bracket symbols (the segments the
loop appends to `title_parts`/`tag_parts`), bracket events, and discarded
separator runs.  An `(` immediately followed by `^^;` fails the negative
lookahead and is ordinary text. -/

inductive Br where
  | paren
  | square
  deriving DecidableEq, Repr

/-- One item recognized while scanning a stem: a text segment, an opening
bracket, or a closing bracket. -/
inductive Ev where
  | seg (s : List Char)
  | op (b : Br)
  | cl (b : Br)
  deriving DecidableEq, Repr

/-- The kaomoji test: is the character after `(` the start of `^^;`? -/
def isKao : List Char → Bool
  | '^' :: '^' :: ';' :: _ => true
  | _ => false

/-- Flush the (reversed) pending text run as a segment event. -/
def flushSeg (acc : List Char) (evs : List Ev) : List Ev :=
  if acc = [] then evs else .seg acc.reverse :: evs

/-- Scan characters into events; `acc` holds the current text run reversed. -/
def scanAux (acc : List Char) : List Char → List Ev
  | [] => flushSeg acc []
  | c :: rest =>
    if isSep c then flushSeg acc (scanAux [] rest)
    else if c = '[' then flushSeg acc (.op .square :: scanAux [] rest)
    else if c = ']' then flushSeg acc (.cl .square :: scanAux [] rest)
    else if c = ')' then flushSeg acc (.cl .paren :: scanAux [] rest)
    else if c = '(' && !isKao rest then flushSeg acc (.op .paren :: scanAux [] rest)
    else scanAux (c :: acc) rest

def scan (cs : List Char) : List Ev :=
  scanAux [] cs

/-- `" ".join(parts)` on char-list parts. -/
def joinSp : List (List Char) → List Char
  | [] => []
  | [p] => p
  | p :: ps => p ++ ' ' :: joinSp ps

/-- `_TAG_COMMA_RE.split`, i.e. splitting on ` *[,\+] *`: cut at every comma
or plus and strip adjacent spaces from the pieces. -/
def commaSplitAux (cur : List Char) : List Char → List (List Char)
  | [] => [cur.reverse]
  | c :: rest =>
    if c = ',' || c = '+' then cur.reverse :: commaSplitAux [] rest
    else commaSplitAux (c :: cur) rest

def trimSpaces (cs : List Char) : List Char :=
  ((cs.dropWhile (· = ' ')).reverse.dropWhile (· = ' ')).reverse

def commaSplit (cs : List Char) : List (List Char) :=
  (commaSplitAux [] cs).map trimSpaces

/-- Tokenizer output: title and ordered raw tags (`StemInfo`). -/
structure StemInfo where
  title : String
  tags : List String
  deriving DecidableEq, Repr

/-- The state machine of `StemInfo.from_stem`, run over the scanned events:
`inTag` is `in_open_tag`, and the four `ValueError`s are raised at the same
decision points as in the source. -/
def stemLoop (inTag : Option Br) (titleParts tagParts tags : List (List Char)) :
    List Ev → Except Err (List (List Char) × List (List Char))
  | [] =>
    if inTag.isSome then .error .unterminatedGroup else .ok (titleParts, tags)
  | .seg s :: evs =>
    match inTag with
    | some _ => stemLoop inTag titleParts (tagParts ++ [s]) tags evs
    | none => stemLoop inTag (titleParts ++ [s]) tagParts tags evs
  | .op b :: evs =>
    match inTag with
    | some _ => .error .nestedGroups
    | none => stemLoop (some b) titleParts tagParts tags evs
  | .cl b :: evs =>
    match inTag with
    | none => .error .groupClosedNoneOpen
    | some ob =>
      if b ≠ ob then .error .mismatchedClose
      else
        let tags' :=
          if tagParts ≠ [] then
            tags ++ ((commaSplit (joinSp tagParts)).filter (· ≠ []))
          else tags
        stemLoop none titleParts [] tags' evs

def StemInfo.from_stem (stem : String) : Except Err StemInfo :=
  (stemLoop none [] [] [] (scan stem.data)).map fun r =>
    { title := ⟨joinSp r.1⟩, tags := r.2.map (⟨·⟩) }

/-! Bracket well-formedness: the tokenizer accepts a stem exactly when its
bracket events alternate as matched open/close pairs and end closed. -/

inductive BEv where
  | o (b : Br)
  | c (b : Br)
  deriving DecidableEq, Repr

def bev : Ev → Option BEv
  | .seg _ => none
  | .op b => some (.o b)
  | .cl b => some (.c b)

def bevents (evs : List Ev) : List BEv :=
  evs.filterMap bev

/-- Well-formedness of a bracket-event sequence from a given open state:
never an open inside an open group, closes matching and in pairs, ending
with no group open. -/
def balancedFrom : Option Br → List BEv → Bool
  | none, [] => true
  | none, .o b :: evs => balancedFrom (some b) evs
  | none, .c _ :: _ => false
  | some _, [] => false
  | some _, .o _ :: _ => false
  | some ob, .c b :: evs => b = ob && balancedFrom none evs

def balanced (evs : List BEv) : Bool :=
  balancedFrom none evs

theorem stemLoop_ok_iff (evs : List Ev) :
    ∀ (inTag : Option Br) (tp tgp tgs : List (List Char)),
      (∃ r, stemLoop inTag tp tgp tgs evs = .ok r) ↔
        balancedFrom inTag (bevents evs) = true := by
  induction evs with
  | nil =>
    intro inTag tp tgp tgs
    cases inTag <;> simp [stemLoop, bevents, balancedFrom]
  | cons e evs ih =>
    intro inTag tp tgp tgs
    cases e with
    | seg s =>
      cases inTag <;>
        simpa [stemLoop, bevents, bev] using ih _ _ _ _
    | op b =>
      cases inTag <;>
        simp [stemLoop, bevents, bev, balancedFrom, ih]
    | cl b =>
      cases inTag with
      | none => simp [stemLoop, bevents, bev, balancedFrom]
      | some ob =>
        by_cases hb : b = ob <;>
          simp [stemLoop, bevents, bev, balancedFrom, hb, ih]

/-! ## Closed vocabularies (`metadata.py`, `Language` and `Region`) -/

inductive Language where
  | AMERICAN_ENGLISH | ENGLISH | BRITISH_ENGLISH | FRENCH | CANADIAN_FRENCH
  | GERMAN | SPANISH | LATIN_AMERICAN_SPANISH | ITALIAN | DUTCH | SWEDISH
  | DANISH | JAPANESE | NORWEGIAN | FINNISH | KOREAN | RUSSIAN | POLISH
  | PORTUGESE | BRAZILIAN_PORTUGESE | TURKISH | ARABIC | CHINESE
  | SIMPLIFIED_CHINESE | TRADITIONAL_CHINESE | CZECH | HINDI | GREEK
  | CATALAN | CROATIAN | HUNGARIAN
  deriving DecidableEq, Repr

inductive Region where
  | USA | UNITED_KINGDOM | AUSTRIA | DENMARK | NORWAY | EUROPE | KOREA | ASIA
  | AUSTRALIA | CHINA | ITALY | ISRAEL | IRELAND | SCANDINAVIA | LATIN_AMERICA
  | TAIWAN | BRAZIL | PORTUGAL | FRANCH | GREECE | SPAIN | BELGIUM
  | NETHERLANDS | CANADA | GERMANY | HONG_KONG | NEW_ZEALAND | JAPAN | SWEDEN
  | FINLAND | POLAND | WORLD | RUSSIA
  deriving DecidableEq, Repr

/-- `Language(StrEnum)` member values, in declaration order. -/
def Language.value : Language → String
  | .AMERICAN_ENGLISH => "En-US"
  | .ENGLISH => "En"
  | .BRITISH_ENGLISH => "En-GB"
  | .FRENCH => "Fr"
  | .CANADIAN_FRENCH => "Fr-CA"
  | .GERMAN => "De"
  | .SPANISH => "Es"
  | .LATIN_AMERICAN_SPANISH => "Es-XL"
  | .ITALIAN => "It"
  | .DUTCH => "Nl"
  | .SWEDISH => "Sv"
  | .DANISH => "Da"
  | .JAPANESE => "Ja"
  | .NORWEGIAN => "No"
  | .FINNISH => "Fi"
  | .KOREAN => "Ko"
  | .RUSSIAN => "Ru"
  | .POLISH => "Pl"
  | .PORTUGESE => "Pt"
  | .BRAZILIAN_PORTUGESE => "Pt-BR"
  | .TURKISH => "Tr"
  | .ARABIC => "Ar"
  | .CHINESE => "Zh"
  | .SIMPLIFIED_CHINESE => "Zh-Hans"
  | .TRADITIONAL_CHINESE => "Zh-Hant"
  | .CZECH => "Cs"
  | .HINDI => "Hi"
  | .GREEK => "El"
  | .CATALAN => "Ca"
  | .CROATIAN => "Hr"
  | .HUNGARIAN => "Hu"

/-- `Region(StrEnum)` member values, in declaration order. -/
def Region.value : Region → String
  | .USA => "USA"
  | .UNITED_KINGDOM => "UK"
  | .AUSTRIA => "Austria"
  | .DENMARK => "Denmark"
  | .NORWAY => "Norway"
  | .EUROPE => "Europe"
  | .KOREA => "Korea"
  | .ASIA => "Asia"
  | .AUSTRALIA => "Australia"
  | .CHINA => "China"
  | .ITALY => "Italy"
  | .ISRAEL => "Israel"
  | .IRELAND => "Ireland"
  | .SCANDINAVIA => "Scandinavia"
  | .LATIN_AMERICA => "Latin America"
  | .TAIWAN => "Taiwan"
  | .BRAZIL => "Brazil"
  | .PORTUGAL => "Portugal"
  | .FRANCH => "France"
  | .GREECE => "Greece"
  | .SPAIN => "Spain"
  | .BELGIUM => "Belgium"
  | .NETHERLANDS => "Netherlands"
  | .CANADA => "Canada"
  | .GERMANY => "Germany"
  | .HONG_KONG => "Hong Kong"
  | .NEW_ZEALAND => "New Zealand"
  | .JAPAN => "Japan"
  | .SWEDEN => "Sweden"
  | .FINLAND => "Finland"
  | .POLAND => "Poland"
  | .WORLD => "World"
  | .RUSSIA => "Russia"

def allLanguages : List Language :=
  [.AMERICAN_ENGLISH, .ENGLISH, .BRITISH_ENGLISH, .FRENCH, .CANADIAN_FRENCH,
   .GERMAN, .SPANISH, .LATIN_AMERICAN_SPANISH, .ITALIAN, .DUTCH, .SWEDISH,
   .DANISH, .JAPANESE, .NORWEGIAN, .FINNISH, .KOREAN, .RUSSIAN, .POLISH,
   .PORTUGESE, .BRAZILIAN_PORTUGESE, .TURKISH, .ARABIC, .CHINESE,
   .SIMPLIFIED_CHINESE, .TRADITIONAL_CHINESE, .CZECH, .HINDI, .GREEK,
   .CATALAN, .CROATIAN, .HUNGARIAN]

def allRegions : List Region :=
  [.USA, .UNITED_KINGDOM, .AUSTRIA, .DENMARK, .NORWAY, .EUROPE, .KOREA, .ASIA,
   .AUSTRALIA, .CHINA, .ITALY, .ISRAEL, .IRELAND, .SCANDINAVIA, .LATIN_AMERICA,
   .TAIWAN, .BRAZIL, .PORTUGAL, .FRANCH, .GREECE, .SPAIN, .BELGIUM,
   .NETHERLANDS, .CANADA, .GERMANY, .HONG_KONG, .NEW_ZEALAND, .JAPAN, .SWEDEN,
   .FINLAND, .POLAND, .WORLD, .RUSSIA]

/-- `Metadata._LANGUAGE_LOOKUP`: exact (case-sensitive) value-to-member map. -/
def languageLookup (tag : String) : Option Language :=
  allLanguages.find? fun l => l.value = tag

/-- `Metadata._REGION_LOOKUP`: exact (case-sensitive) value-to-member map. -/
def regionLookup (tag : String) : Option Region :=
  allRegions.find? fun r => r.value = tag

/-! ## Localization and `english_priority` (`metadata.py` lines 222-271)

The frozensets `regions`/`languages` are modelled as duplicate-free lists;
only membership and emptiness are ever consulted. -/

structure Localization where
  regions : List Region := []
  languages : List Language := []
  deriving DecidableEq, Repr

/-- Direct transcription of `Localization.english_priority`. -/
def Localization.english_priority (loc : Localization) : Nat :=
  let is_american_english := memB Language.AMERICAN_ENGLISH loc.languages
  let is_english := memB Language.ENGLISH loc.languages
  let is_british_english := memB Language.BRITISH_ENGLISH loc.languages
  let any_english := is_american_english || is_english || is_british_english
  let not_only_nonenglish := loc.languages.isEmpty || any_english
  if memB Region.USA loc.regions && not_only_nonenglish then 1
  else if is_american_english then 2
  else if is_english then 3
  else if is_british_english then 4
  else if not_only_nonenglish then
    if memB Region.CANADA loc.regions then 5
    else if memB Region.UNITED_KINGDOM loc.regions then 6
    else if memB Region.AUSTRALIA loc.regions then 7
    else if memB Region.NEW_ZEALAND loc.regions then 8
    else if memB Region.EUROPE loc.regions then 9
    else 0
  else 0

/-! ## Tag recognizers (`metadata.py` lines 347-519)

Each `PatternParser` is a `fullmatch` of one regular expression plus an
extractor over its named groups.  They are realized below as functions from
the tag to the extracted value (`""` = no match), following each pattern's
alternation order, greediness and capture behaviour. -/

def pyIsDigit (cs : List Char) : Bool :=
  cs ≠ [] && cs.all isDigitCh

def natOfDigits (cs : List Char) : Nat :=
  cs.foldl (fun acc c => acc * 10 + (c.toNat - 48)) 0

def natStr (n : Nat) : String :=
  toString n

def noNl (cs : List Char) : Bool :=
  cs.all (· ≠ '\n')

def nonWsAll (cs : List Char) : Bool :=
  cs.all (fun c => !isWs c)

def idxOf {α : Type} [DecidableEq α] (x : α) : List α → Option Nat
  | [] => none
  | y :: ys => if x = y then some 0 else (idxOf x ys).map (· + 1)

/-- Generic single-character split (used for word decomposition). -/
def splitChAux (d : Char) (cur : List Char) : List Char → List (List Char)
  | [] => [cur.reverse]
  | c :: rest =>
    if c = d then cur.reverse :: splitChAux d [] rest
    else splitChAux d (c :: cur) rest

def splitCh (d : Char) (cs : List Char) : List (List Char) :=
  splitChAux d [] cs

/-- Split at the last occurrence of `d`; the right part contains no `d`. -/
def breakLast (d : Char) : List Char → Option (List Char × List Char)
  | [] => none
  | c :: rest =>
    match breakLast d rest with
    | some (a, b) => some (c :: a, b)
    | none => if c = d then some ([], rest) else none

/-- `_EARLY_ROMAN_NUMERALS`: I..X then XI..XX, uppercase. -/
def EARLY_ROMAN_NUMERALS : List String :=
  ["I", "II", "III", "IV", "V", "VI", "VII", "VIII", "IX", "X",
   "XI", "XII", "XIII", "XIV", "XV", "XVI", "XVII", "XVIII", "XIX", "XX"]

/-- `_EARLY_JAPANESE_NUMBERS`. -/
def EARLY_JAPANESE_NUMBERS : List (List String) :=
  [["ichi"], ["ni"], ["san"], ["shi", "yon"], ["go"], ["roku"],
   ["shichi", "nana"], ["hachi"], ["kyū", "ku", "kyu"], ["jū", "ju"]]

def japIdxAux (s : String) : List (List String) → Option Nat
  | [] => none
  | g :: gs => if memB s g then some 0 else (japIdxAux s gs).map (· + 1)

/-- `disc_number_to_int`: decimal digits pass through; Roman numerals are
looked up case-sensitively; a lone alphabetic character maps to
`ord(c.lower()) - ord('a')`; Japanese counting words map to index + 1. -/
def disc_number_to_int (number : String) : String :=
  if pyIsDigit number.data then number
  else
    match idxOf number EARLY_ROMAN_NUMERALS with
    | some i => natStr (i + 1)
    | none =>
      let n := lcL number.data
      if n.length = 1 ∧ isAsciiAlpha (n.headI) then
        natStr (n.headI.toNat - 'a'.toNat)
      else
        match japIdxAux ⟨n⟩ EARLY_JAPANESE_NUMBERS with
        | some i => natStr (i + 1)
        | none => ""

/-- The words of the `_ROMAN_OR_JAPANESE_NUMBERS` alternation, lowered for
IGNORECASE matching. -/
def rjWords : List (List Char) :=
  (EARLY_ROMAN_NUMERALS.map fun s => lcL s.data) ++
    (EARLY_JAPANESE_NUMBERS.foldr (fun g acc => g.map (·.data) ++ acc) [])

/-- `\d+|[A-Z]|_ROMAN_OR_JAPANESE_NUMBERS` under IGNORECASE, as a full match
of the given characters. -/
def discNumOk (cs : List Char) : Bool :=
  pyIsDigit cs ||
    (match cs with
     | [c] => isAsciiAlpha c
     | _ => false) ||
    memB (lcL cs) rjWords

/-- Named groups of `DISC_NUMBER_PARSER.pattern` after a successful
fullmatch. -/
structure DiscGroups where
  name1 : Option (List Char) := none
  name2 : Option (List Char) := none
  name3 : Option (List Char) := none
  number1 : Option (List Char) := none
  number2 : Option (List Char) := none
  deriving DecidableEq, Repr

/-- Text allowed after `dis[ck]`: nothing, or a space and a disc number. -/
def disc3Rest : List Char → Option (Option (List Char))
  | [] => some none
  | ' ' :: num => if discNumOk num then some (some num) else none
  | _ => none

/-- Attempt `(?P<name3>.+) dis[ck]( num)?` with `dis[ck]` starting at
position `i` (so `name3` is `cs[0:i-1]` and `cs[i-1]` is the space). -/
def disc3AtPos (cs : List Char) (i : Nat) : Option (Option (List Char) × Option (List Char)) :=
  let rest := cs.drop i
  if hasPre (lcL rest) "disc".data || hasPre (lcL rest) "disk".data then
    match disc3Rest (rest.drop 4) with
    | some num =>
      match (cs.take i).reverse with
      | ' ' :: nmrev =>
        let name := nmrev.reverse
        if name ≠ [] && noNl name then some (some name, num) else none
      | _ => none
    | none => none
  else none

/-- Greedy search for the longest `name3` (largest split position). -/
def disc3Search (cs : List Char) : Nat → Option (Option (List Char) × Option (List Char))
  | 0 => none
  | i + 1 =>
    match disc3AtPos cs (i + 1) with
    | some r => some r
    | none => disc3Search cs i

/-- Fullmatch of `DISC_NUMBER_PARSER.pattern` (IGNORECASE):
`cd (?P<name1>.+)|(?P<name2>.+)-hen|((?P<name3>.+) )?dis[ck]( (?P<number1>...))?|(?P<number2>...)`,
branches tried in order. -/
def discFullmatch (cs : List Char) : Option DiscGroups :=
  let l := lcL cs
  if hasPre l "cd ".data && cs.drop 3 ≠ [] && noNl (cs.drop 3) then
    some { name1 := some (cs.drop 3) }
  else if hasSuf l "-hen".data && cs.length > 4 && noNl (cs.take (cs.length - 4)) then
    some { name2 := some (cs.take (cs.length - 4)) }
  else
    match disc3Search cs cs.length with
    | some (name, num) => some { name3 := name, number1 := num }
    | none =>
      if (hasPre l "disc".data || hasPre l "disk".data) then
        match disc3Rest (cs.drop 4) with
        | some num => some { number1 := num }
        | none =>
          if memB l rjWords then some { number2 := some cs } else none
      else if memB l rjWords then
        some { number2 := some cs }
      else none

/-- `DISC_NUMBER_PARSER`: extract `number1 or number2 or ""` and resolve it
through `disc_number_to_int`. -/
def DISC_NUMBER_parse (tag : String) : String :=
  match discFullmatch tag.data with
  | none => ""
  | some g => disc_number_to_int ⟨(g.number1.orElse fun _ => g.number2).getD []⟩

/-- `DISC_NAME_PARSER`: same pattern, extracting `name1 or name2 or name3`. -/
def DISC_NAME_parse (tag : String) : String :=
  match discFullmatch tag.data with
  | none => ""
  | some g => ⟨((g.name1.orElse fun _ => g.name2).orElse fun _ => g.name3).getD []⟩

/-- The `name` alternation of `DEMO_PARSER`, on lowered characters. -/
def demoName (l : List Char) : Bool :=
  l = "demo".data || l = "tech demo".data ||
  (let p := if hasPre l "playable game ".data then l.drop 14 else l
   p = "preview".data ||
     (hasPre p "preview edition by ".data && p.drop 19 ≠ [] && noNl (p.drop 19))) ||
  (hasSuf l " previews".data && l.length > 9 && noNl (l.take (l.length - 9))) ||
  (let p := if hasPre l "taikenban ".data then l.drop 10 else l
   p = "sample".data || p = "sample rom".data) ||
  (let ps := splitCh ' ' l
   ps.getLast? = some "trial".data &&
     ps.dropLast.all fun w => w ≠ [] && nonWsAll w)

/-- `DEMO_PARSER`: `name( ((\d+)|edition|version))?`, extractor = whole tag. -/
def DEMO_parse (tag : String) : String :=
  let l := lcL tag.data
  let hit :=
    demoName l ||
      (match breakLast ' ' l with
       | some (a, b) =>
         (pyIsDigit b || b = "edition".data || b = "version".data) && demoName a
       | none => false)
  if hit then tag else ""

/-- The `name` alternation of `PRERELEASE_PARSER`, on lowered characters:
`alpha|beta|([^\s]+ )?promo|(possible )?proto(type)?`. -/
def prereleaseName (l : List Char) : Bool :=
  l = "alpha".data || l = "beta".data ||
  (l = "promo".data ||
    (hasSuf l " promo".data && l.length > 6 &&
      nonWsAll (l.take (l.length - 6)))) ||
  (let p := if hasPre l "possible ".data then l.drop 9 else l
   p = "proto".data || p = "prototype".data)

/-- `PRERELEASE_PARSER`: `name( (\d+))?`, extractor = whole tag. -/
def PRERELEASE_parse (tag : String) : String :=
  let l := lcL tag.data
  let hit :=
    prereleaseName l ||
      (match breakLast ' ' l with
       | some (a, b) => pyIsDigit b && prereleaseName a
       | none => false)
  if hit then tag else ""

/-- The character class `[a-f0-9.]` under IGNORECASE. -/
def revClass (cs : List Char) : Bool :=
  cs ≠ [] && cs.all fun c =>
    isDigitCh c || ('a' ≤ c && c ≤ 'f') || ('A' ≤ c && c ≤ 'F') || c = '.'

/-- `REVISION_PARSER`: `((Rev|Revision) |r)(?P<revision>[a-f0-9.]+)`,
extracting the `revision` group with original casing. -/
def REVISION_parse (tag : String) : String :=
  let cs := tag.data
  let l := lcL cs
  if hasPre l "rev ".data && revClass (cs.drop 4) then ⟨cs.drop 4⟩
  else if hasPre l "revision ".data && revClass (cs.drop 9) then ⟨cs.drop 9⟩
  else if hasPre l "r".data && revClass (cs.drop 1) then ⟨cs.drop 1⟩
  else ""

/-- Body of the bare-version branch `(\d|[a-f]\d[^\s]*\d)[^\s]*`, on lowered
characters. -/
def versionBareBody (l : List Char) : Bool :=
  match l with
  | c :: rest =>
    (isDigitCh c && nonWsAll rest) ||
      (('a' ≤ c && c ≤ 'f') &&
        match rest with
        | d :: rest2 => isDigitCh d && nonWsAll rest2 && rest2.any isDigitCh
        | [] => false)
  | [] => false

/-- `VERSION_PARSER`: `((?P<prefix>v|Ver|Version )(?P<value>[a-f0-9.]+))` or
the bare numeric heuristic `(?P<version>\.?(\d|[a-f]\d[^\s]*\d)[^\s]*)`;
the extractor returns `value` when a prefix matched, else the whole tag. -/
def VERSION_parse (tag : String) : String :=
  let cs := tag.data
  let l := lcL cs
  if hasPre l "v".data && revClass (cs.drop 1) then ⟨cs.drop 1⟩
  else if hasPre l "ver".data && revClass (cs.drop 3) then ⟨cs.drop 3⟩
  else if hasPre l "version ".data && revClass (cs.drop 8) then ⟨cs.drop 8⟩
  else
    let body := match l with
      | '.' :: t => t
      | _ => l
    if versionBareBody body then tag else ""

/-- `ALTERNATE_PARSER`: `alt( (?P<index>\d+))?`, extractor `index or "1"`. -/
def ALTERNATE_parse (tag : String) : String :=
  let l := lcL tag.data
  if l = "alt".data then "1"
  else if hasPre l "alt ".data && pyIsDigit (l.drop 4) then ⟨tag.data.drop 4⟩
  else ""

/-- `PatternParser.from_tags`: IGNORECASE fullmatch of a literal word list,
extractor = whole tag. -/
def fromTagsParse (words : List String) (tag : String) : String :=
  if memB (lcL tag.data) (words.map (·.data)) then tag else ""

def EARLY_parse : String → String := fromTagsParse ["early", "earlier"]
def ARCADE_parse : String → String := fromTagsParse ["arcade"]
def WII_parse : String → String := fromTagsParse ["wii"]
def SWITCH_parse : String → String := fromTagsParse ["switch", "switch online"]
def STEAM_parse : String → String := fromTagsParse ["steam"]
def VIRTUAL_CONSOLE_parse : String → String := fromTagsParse ["virtual console"]
def CLASSIC_MINI_parse : String → String := fromTagsParse ["classic mini"]
def NINTENDO_POWER_parse : String → String := fromTagsParse ["np"]
def UNLICENSED_parse : String → String := fromTagsParse ["unl", "unlicensed"]
def BAD_DUMP_parse : String → String := fromTagsParse ["b"]
def DEBUG_parse : String → String := fromTagsParse ["debug"]

def dateSepCh (c : Char) : Bool :=
  c = '-' || c = '.'

def isXX (cs : List Char) : Bool :=
  lcL cs = ['x', 'x']

/-- Day group `\d{1,2}|XX`, consuming the whole remainder. -/
def dayOk (cs : List Char) : Bool :=
  (match cs with
   | [a] => isDigitCh a
   | [a, b] => isDigitCh a && isDigitCh b
   | _ => false) || isXX cs

/-- Continue after a month candidate: end of input, or a separator and a
day group. -/
def dateFinish (m rest : List Char) : Option (List Char × Option (List Char)) :=
  match rest with
  | [] => some (m, none)
  | s :: rest2 => if dateSepCh s && dayOk rest2 then some (m, some rest2) else none

/-- Month group `\d{1,2}|XX` with backtracking: two digits, one digit, then
`XX`. -/
def dateMD (cs : List Char) : Option (List Char × Option (List Char)) :=
  (match cs with
   | a :: b :: rest =>
     if isDigitCh a && isDigitCh b then dateFinish [a, b] rest else none
   | _ => none).orElse fun _ =>
  (match cs with
   | a :: rest => if isDigitCh a then dateFinish [a] rest else none
   | _ => none).orElse fun _ =>
  (match cs with
   | a :: b :: rest =>
     if lcChar a = 'x' && lcChar b = 'x' then dateFinish [a, b] rest else none
   | _ => none)

/-- Fullmatch of `DATE_PARSER.pattern`:
`(?P<year>\d{4})([-.](?P<month>\d{1,2}|XX)([-.](?P<day>\d{1,2}|XX))?)?`. -/
def dateGroups (cs : List Char) : Option (List Char × Option (List Char) × Option (List Char)) :=
  match cs with
  | y1 :: y2 :: y3 :: y4 :: rest =>
    if [y1, y2, y3, y4].all isDigitCh then
      match rest with
      | [] => some ([y1, y2, y3, y4], none, none)
      | s :: rest2 =>
        if dateSepCh s then
          match dateMD rest2 with
          | some (m, d) => some ([y1, y2, y3, y4], some m, d)
          | none => none
        else none
    else none
  | _ => none

def isLeap (y : Nat) : Bool :=
  (y % 4 = 0 && y % 100 ≠ 0) || y % 400 = 0

def daysInMonth (y m : Nat) : Nat :=
  if m = 2 then (if isLeap y then 29 else 28)
  else if memB m [4, 6, 9, 11] then 30 else 31

/-- `datetime.date` constructor validity. -/
def validDate (y m d : Nat) : Bool :=
  1 ≤ y && y ≤ 9999 && 1 ≤ m && m ≤ 12 && 1 ≤ d && d ≤ daysInMonth y m

def pad2 (n : Nat) : String :=
  if n < 10 then "0" ++ natStr n else natStr n

def pad4 (n : Nat) : String :=
  if n < 10 then "000" ++ natStr n
  else if n < 100 then "00" ++ natStr n
  else if n < 1000 then "0" ++ natStr n
  else natStr n

/-- `datetime.date(...).isoformat()`. -/
def isoFmt (y m d : Nat) : String :=
  pad4 y ++ "-" ++ pad2 m ++ "-" ++ pad2 d

/-- `DATE_PARSER`'s extractor.  Both omitted groups crash: the source reads
`int(m) if (m := match.group("month")).lower() != "xx" else 1` (and the same
for `day`), which calls `.lower()` on `None` whenever the group is absent;
an out-of-range component raises `ValueError` inside `datetime.date`. -/
def DATE_parse (tag : String) : Except Err String :=
  match dateGroups tag.data with
  | none => .ok ""
  | some (y, m?, d?) =>
    match m? with
    | none => .error .attributeNone
    | some m =>
      let mv := if isXX m then 1 else natOfDigits m
      match d? with
      | none => .error .attributeNone
      | some d =>
        let dv := if isXX d then 1 else natOfDigits d
        let yv := natOfDigits y
        if validDate yv mv dv then .ok (isoFmt yv mv dv) else .error .invalidDate

/-- `datetime.date.fromisoformat` restricted to the `isoformat` output shape
produced above. -/
def fromIso (s : String) : Option (Nat × Nat × Nat) :=
  match s.data with
  | [a, b, c, d, '-', e, f, '-', g, h] =>
    if [a, b, c, d, e, f, g, h].all isDigitCh then
      some (natOfDigits [a, b, c, d], natOfDigits [e, f], natOfDigits [g, h])
    else none
  | _ => none

/-! ## Entity model (`metadata.py` lines 14-341, 522-575)

Frozen dataclasses become structures; the `Date` wrapper is the optional
calendar-date triple; `Tags.values` is the duplicate-free list of residual
tag strings. -/

structure Edition where
  arcade : Bool := false
  version : String := ""
  revision : String := ""
  prerelease : String := ""
  demo : String := ""
  early : String := ""
  debug : Bool := false
  date : Option (Nat × Nat × Nat) := none
  alternate : Nat := 0
  wii : Bool := false
  switch : Bool := false
  steam : Bool := false
  virtual_console : Bool := false
  classic_mini : Bool := false
  nintendo_power : Bool := false
  deriving DecidableEq, Repr

structure Disc where
  name : String := ""
  number : Option Nat := none
  deriving DecidableEq, Repr

structure Variation where
  edition : Edition := {}
  disc : Disc := {}
  deriving DecidableEq, Repr

structure Entity where
  variation : Variation := {}
  unhandled_tags : List String := []
  deriving DecidableEq, Repr

structure Unit where
  title : String := ""
  entity : Entity := {}
  localization : Localization := {}
  deriving DecidableEq, Repr

structure Metadata where
  unit : Unit := {}
  unlicensed : Bool := false
  bad_dump : Bool := false
  category : Option String := none
  stem : String := ""
  id : String := ""
  cloneofid : String := ""
  deriving DecidableEq, Repr

/-! ## Tag classification (`metadata.py` lines 315-344 and 577-685) -/

/-- `TagMatcher.__call__`: given the parser's extracted value and the
matcher's stored value, return (matched, new stored value) or raise.  A
second match on a non-duplicate-tolerant matcher raises unconditionally; a
duplicate-tolerant matcher raises only on a conflicting value. -/
def tagMatcherCall (value cur : String) (allow_duplicates : Bool) :
    Except Err (Bool × String) :=
  if value ≠ "" then
    if cur ≠ "" then
      if !allow_duplicates then .error .multipleTags
      else if value ≠ cur then .error .conflictingValues
      else .ok (true, value)
    else .ok (true, value)
  else .ok (false, cur)

/-- The stored values of the matchers created in `Metadata.from_stem`, in
`TAG_MATCHERS` declaration order. -/
structure MState where
  disc_name : String := ""
  disc_number : String := ""
  demo : String := ""
  early : String := ""
  debug : String := ""
  arcade : String := ""
  wii : String := ""
  switch : String := ""
  steam : String := ""
  virtual_console : String := ""
  classic_mini : String := ""
  nintendo_power : String := ""
  unlicensed : String := ""
  bad_dump : String := ""
  alternate : String := ""
  date : String := ""
  prerelease : String := ""
  revision : String := ""
  version : String := ""
  deriving DecidableEq, Repr

/-- One tag through `TAG_MATCHERS`: the disc-name/disc-number pair forms one
group whose members are both attempted; every other matcher is its own
group; the first group that matches claims the tag. -/
def processTag (st : MState) (tag : String) : Except Err (Bool × MState) := do
  let (mName, vName) ← tagMatcherCall (DISC_NAME_parse tag) st.disc_name false
  let (mNum, vNum) ← tagMatcherCall (DISC_NUMBER_parse tag) st.disc_number true
  let st := { st with disc_name := vName, disc_number := vNum }
  if mName || mNum then return (true, st)
  let (m, v) ← tagMatcherCall (DEMO_parse tag) st.demo false
  let st := { st with demo := v }
  if m then return (true, st)
  let (m, v) ← tagMatcherCall (EARLY_parse tag) st.early false
  let st := { st with early := v }
  if m then return (true, st)
  let (m, v) ← tagMatcherCall (DEBUG_parse tag) st.debug false
  let st := { st with debug := v }
  if m then return (true, st)
  let (m, v) ← tagMatcherCall (ARCADE_parse tag) st.arcade false
  let st := { st with arcade := v }
  if m then return (true, st)
  let (m, v) ← tagMatcherCall (WII_parse tag) st.wii false
  let st := { st with wii := v }
  if m then return (true, st)
  let (m, v) ← tagMatcherCall (SWITCH_parse tag) st.switch false
  let st := { st with switch := v }
  if m then return (true, st)
  let (m, v) ← tagMatcherCall (STEAM_parse tag) st.steam false
  let st := { st with steam := v }
  if m then return (true, st)
  let (m, v) ← tagMatcherCall (VIRTUAL_CONSOLE_parse tag) st.virtual_console false
  let st := { st with virtual_console := v }
  if m then return (true, st)
  let (m, v) ← tagMatcherCall (CLASSIC_MINI_parse tag) st.classic_mini false
  let st := { st with classic_mini := v }
  if m then return (true, st)
  let (m, v) ← tagMatcherCall (NINTENDO_POWER_parse tag) st.nintendo_power false
  let st := { st with nintendo_power := v }
  if m then return (true, st)
  let (m, v) ← tagMatcherCall (UNLICENSED_parse tag) st.unlicensed false
  let st := { st with unlicensed := v }
  if m then return (true, st)
  let (m, v) ← tagMatcherCall (BAD_DUMP_parse tag) st.bad_dump false
  let st := { st with bad_dump := v }
  if m then return (true, st)
  let (m, v) ← tagMatcherCall (ALTERNATE_parse tag) st.alternate false
  let st := { st with alternate := v }
  if m then return (true, st)
  let dateValue ← DATE_parse tag
  let (m, v) ← tagMatcherCall dateValue st.date false
  let st := { st with date := v }
  if m then return (true, st)
  let (m, v) ← tagMatcherCall (PRERELEASE_parse tag) st.prerelease false
  let st := { st with prerelease := v }
  if m then return (true, st)
  let (m, v) ← tagMatcherCall (REVISION_parse tag) st.revision false
  let st := { st with revision := v }
  if m then return (true, st)
  let (m, v) ← tagMatcherCall (VERSION_parse tag) st.version false
  let st := { st with version := v }
  return (m, st)

/-- The per-tag loop of `Metadata.from_stem`: unmatched tags fall through to
the language lookup, then the region lookup, then the residual list; a blank
tag raises `RuntimeError`. -/
def classifyLoop (st : MState) (langs : List Language) (regs : List Region)
    (unh : List String) :
    List String → Except Err (MState × List Language × List Region × List String)
  | [] => .ok (st, langs, regs, unh)
  | tag :: rest => do
    let (matched, st') ← processTag st tag
    if matched then classifyLoop st' langs regs unh rest
    else
      match languageLookup tag with
      | some lang => classifyLoop st' (addIfNew langs lang) regs unh rest
      | none =>
        match regionLookup tag with
        | some r => classifyLoop st' langs (addIfNew regs r) unh rest
        | none =>
          if tag = "" then .error .blankTag
          else classifyLoop st' langs regs (unh ++ [tag]) rest

/-- Python `int(matcher)` = `int(self.value or 0)`. -/
def matcherInt (v : String) : Nat :=
  natOfDigits v.data

/-- `Metadata.from_stem`: tokenize, classify every tag, then assemble the
`Metadata` record.  The `id` and `cloneofid` parameters are accepted exactly
as in the source signature; like the source, the assembly below never uses
them (the linter is silenced for precisely that reason). -/
def Metadata.from_stem (stem : String) (category : Option String := none)
    (id : String := "") (cloneofid : String := "") : Except Err Metadata := do
  let stem_info ← StemInfo.from_stem stem
  let (st, langs, regs, unh) ← classifyLoop {} [] [] [] stem_info.tags
  return {
    unit := {
      title := stem_info.title
      entity := {
        variation := {
          edition := {
            arcade := st.arcade ≠ ""
            version := st.version
            revision := st.revision
            date := if st.date ≠ "" then fromIso st.date else none
            prerelease := st.prerelease
            demo := st.demo
            early := st.early
            debug := st.debug ≠ ""
            alternate := matcherInt st.alternate
            wii := st.wii ≠ ""
            switch := st.switch ≠ ""
            steam := st.steam ≠ ""
            virtual_console := st.virtual_console ≠ ""
            classic_mini := st.classic_mini ≠ ""
            nintendo_power := st.nintendo_power ≠ "" }
          disc := {
            name := st.disc_name
            number := some (matcherInt st.disc_number) } }
        unhandled_tags := unh }
      localization := { regions := regs, languages := langs } }
    stem := stem
    unlicensed := st.unlicensed ≠ ""
    bad_dump := st.bad_dump ≠ ""
    category := category }

/-! ## Catalog layer (`parse.py`)

`parse.py` reads `metadata.title`, `metadata.entity` and
`metadata.localization`; the `Metadata` dataclass nests these under `unit`
(the module predates the `Unit` wrapper), so the accessors below resolve
those attribute reads against the current model. -/

def Metadata.title (m : Metadata) : String :=
  m.unit.title

def Metadata.entity (m : Metadata) : Entity :=
  m.unit.entity

def Metadata.localization (m : Metadata) : Localization :=
  m.unit.localization

open scoped Lex

structure DatRecord where
  stem : String
  description : String := ""
  category : String := ""
  id : String := ""
  cloneofid : String := ""
  deriving DecidableEq, Repr

structure IngestState where
  stem_to_metadata : List (String × Metadata) := []
  id_to_metadata : List (String × Metadata) := []
  original_id_to_clones : List (String × List String) := []
  deriving DecidableEq, Repr

/-- `original_id_to_clones.setdefault(cloneofid, set()).add(id)`. -/
def addClone (m : List (String × List String)) (k v : String) :
    List (String × List String) :=
  match m with
  | [] => [(k, [v])]
  | (k', vs) :: rest =>
    if k = k' then (k', addIfNew vs v) :: rest
    else (k', vs) :: addClone rest k v

/-- One `game` record through the loop body of `DatFile.__init__`:
description check, duplicate-stem check, classification, the optional
metadata filter, then the id / cloneofid bookkeeping.  The filter is
consulted before the id checks, exactly as in the source. -/
def ingestStep (filt : Option (Metadata → Bool)) (st : IngestState)
    (r : DatRecord) : Except Err IngestState := do
  if r.description ≠ "" && r.stem ≠ r.description then
    .error .descriptionMismatch
  else if memB r.stem (st.stem_to_metadata.map Prod.fst) then
    .error .duplicateStem
  else do
    let metadata ← Metadata.from_stem r.stem (some r.category) r.id r.cloneofid
    if (filt.map fun f => !f metadata).getD false then
      return st
    let st := { st with
      stem_to_metadata := st.stem_to_metadata ++ [(r.stem, metadata)] }
    if r.id ≠ "" then
      if memB r.id (st.id_to_metadata.map Prod.fst) then .error .duplicateId
      else
        let st := { st with
          id_to_metadata := st.id_to_metadata ++ [(r.id, metadata)] }
        if r.cloneofid ≠ "" then
          return { st with
            original_id_to_clones :=
              addClone st.original_id_to_clones r.cloneofid r.id }
        else
          return st
    else if r.cloneofid ≠ "" then
      .error .missingIdForClone
    else
      return st

/-- The record loop of `DatFile.__init__` over a list of catalog records. -/
def DatFile.ingest (records : List DatRecord)
    (filt : Option (Metadata → Bool) := none) : Except Err IngestState :=
  records.foldlM (ingestStep filt) {}

/-! ## Auxiliary lemmas -/

theorem except_map_ok_iff {α β : Type} (f : α → β) (x : Except Err α) :
    (∃ b, x.map f = .ok b) ↔ ∃ a, x = .ok a := by
  cases x <;> simp [Except.map]

/-- A nonempty pending text run always surfaces as the leading segment
event, extended by whatever text characters follow. -/
theorem scanAux_text_head (cs : List Char) :
    ∀ acc : List Char, acc ≠ [] →
      ∃ t rest, scanAux acc cs = .seg (acc.reverse ++ t) :: rest := by
  induction cs with
  | nil =>
    intro acc h
    exact ⟨[], [], by simp [scanAux, flushSeg, h]⟩
  | cons c cs ih =>
    intro acc h
    by_cases hsep : isSep c = true
    · exact ⟨[], scanAux [] cs, by simp [scanAux, hsep, flushSeg, h]⟩
    · by_cases hsq : c = '['
      · exact ⟨[], .op .square :: scanAux [] cs,
          by simp [scanAux, hsq, flushSeg, h, isSep, isWs]⟩
      · by_cases hcq : c = ']'
        · exact ⟨[], .cl .square :: scanAux [] cs,
            by simp [scanAux, hsq, hcq, flushSeg, h, isSep, isWs]⟩
        · by_cases hcp : c = ')'
          · exact ⟨[], .cl .paren :: scanAux [] cs,
              by simp [scanAux, hsq, hcq, hcp, flushSeg, h, isSep, isWs]⟩
          · by_cases hop : (c = '(' && !isKao cs) = true
            · have hc : c = '(' := by
                cases hand : (c = '(' : Bool) <;> simp [hand] at hop ⊢
                simpa using hand
              have hkao : isKao cs = false := by simpa [hc] using hop
              exact ⟨[], .op .paren :: scanAux [] cs,
                by simp [scanAux, flushSeg, h, hc, hkao, isSep, isWs]⟩
            · obtain ⟨t, rest, ht⟩ := ih (c :: acc) (by simp)
              exact ⟨c :: t, rest,
                by simp [scanAux, hsep, hsq, hcq, hcp, hop] at ht ⊢
                   simpa using ht⟩

/-- The exact ranking table asserted by claim C1, transcribed from its text:
ranks 1-8 and 0 otherwise, with no entry for Europe. -/
def englishPriorityClaimTable (loc : Localization) : Nat :=
  if Region.USA ∈ loc.regions ∧
      (loc.languages = [] ∨ Language.AMERICAN_ENGLISH ∈ loc.languages ∨
        Language.ENGLISH ∈ loc.languages ∨
        Language.BRITISH_ENGLISH ∈ loc.languages) then 1
  else if Language.AMERICAN_ENGLISH ∈ loc.languages then 2
  else if Language.ENGLISH ∈ loc.languages then 3
  else if Language.BRITISH_ENGLISH ∈ loc.languages then 4
  else if loc.languages = [] ∨ Language.AMERICAN_ENGLISH ∈ loc.languages ∨
      Language.ENGLISH ∈ loc.languages ∨
      Language.BRITISH_ENGLISH ∈ loc.languages then
    if Region.CANADA ∈ loc.regions then 5
    else if Region.UNITED_KINGDOM ∈ loc.regions then 6
    else if Region.AUSTRALIA ∈ loc.regions then 7
    else if Region.NEW_ZEALAND ∈ loc.regions then 8
    else 0
  else 0

/-- Claim C1's table amended with the rank-9 Europe line that the code
evaluates after New Zealand. -/
def englishPriorityAmendedTable (loc : Localization) : Nat :=
  if Region.USA ∈ loc.regions ∧
      (loc.languages = [] ∨ Language.AMERICAN_ENGLISH ∈ loc.languages ∨
        Language.ENGLISH ∈ loc.languages ∨
        Language.BRITISH_ENGLISH ∈ loc.languages) then 1
  else if Language.AMERICAN_ENGLISH ∈ loc.languages then 2
  else if Language.ENGLISH ∈ loc.languages then 3
  else if Language.BRITISH_ENGLISH ∈ loc.languages then 4
  else if loc.languages = [] ∨ Language.AMERICAN_ENGLISH ∈ loc.languages ∨
      Language.ENGLISH ∈ loc.languages ∨
      Language.BRITISH_ENGLISH ∈ loc.languages then
    if Region.CANADA ∈ loc.regions then 5
    else if Region.UNITED_KINGDOM ∈ loc.regions then 6
    else if Region.AUSTRALIA ∈ loc.regions then 7
    else if Region.NEW_ZEALAND ∈ loc.regions then 8
    else if Region.EUROPE ∈ loc.regions then 9
    else 0
  else 0

/-- C1 counterexample: the claim's table ends at rank 8 and assigns 0 to a
Europe-only localization with no language tags, but `english_priority`
returns 9 there. -/
theorem europe_priority_counterexample :
    Localization.english_priority
        { regions := [Region.EUROPE], languages := [] } = 9 ∧
    englishPriorityClaimTable
        { regions := [Region.EUROPE], languages := [] } = 0 := by
  decide

set_option maxHeartbeats 1000000 in
/-- C1 (amended): `english_priority` agrees everywhere with the claimed
first-match ranking table once the rank-9 Europe line is added. -/
theorem english_priority_matches_amended_table (loc : Localization) :
    loc.english_priority = englishPriorityAmendedTable loc := by
  unfold Localization.english_priority englishPriorityAmendedTable
  by_cases h1 : Language.AMERICAN_ENGLISH ∈ loc.languages <;>
  by_cases h2 : Language.ENGLISH ∈ loc.languages <;>
  by_cases h3 : Language.BRITISH_ENGLISH ∈ loc.languages <;>
  by_cases h4 : Region.USA ∈ loc.regions <;>
  by_cases h5 : loc.languages = [] <;>
    simp [h1, h2, h3, h4, h5, memB_iff, List.isEmpty_iff]

/-- C2: a bare `YYYY` or `YYYY-MM` date tag crashes classification (the
extractor calls `.lower()` on the absent month/day group), while a full
`YYYY-MM-DD` tag parses and `XX` placeholders default to 1. -/
theorem date_tag_crashes :
    Metadata.from_stem "Game (1994)" = .error .attributeNone ∧
    Metadata.from_stem "Game (1994-05)" = .error .attributeNone ∧
    (Metadata.from_stem "Game (1994-05-03)").map
      (fun m => m.unit.entity.variation.edition.date) = .ok (some (1994, 5, 3)) ∧
    (Metadata.from_stem "Game (1994-XX-XX)").map
      (fun m => m.unit.entity.variation.edition.date) = .ok (some (1994, 1, 1)) ∧
    DATE_parse "1994" = .error .attributeNone ∧
    DATE_parse "1994-05" = .error .attributeNone ∧
    DATE_parse "1994-05-03" = .ok "1994-05-03" :=
  ⟨rfl, rfl, rfl, rfl, rfl, rfl, rfl⟩

/-- C3 counterexample: classifying the test stem does NOT yield the claimed
language set {English, French, Spanish}: "Sp" is not a language-vocabulary
value (Spanish is "Es") and stays residual, while "Ko" is Korean. -/
theorem some_game_classification_counterexample :
    (Metadata.from_stem "Some Game (En,Fr,Sp) (Jp, Ko, Ch)").map
      (fun m => decide (Language.SPANISH ∈ m.unit.localization.languages)) =
      .ok false ∧
    (Metadata.from_stem "Some Game (En,Fr,Sp) (Jp, Ko, Ch)").map
      (fun m => m.unit.entity.unhandled_tags) = .ok ["Sp", "Jp", "Ch"] :=
  ⟨rfl, rfl⟩

/-- C3 (amended): the stem tokenizes to title "Some Game" with the six tags
in order, and classification yields languages {English, French, Korean}, no
regions, and residual tags {"Sp", "Jp", "Ch"}. -/
theorem some_game_classification :
    StemInfo.from_stem "Some Game (En,Fr,Sp) (Jp, Ko, Ch)" =
      .ok { title := "Some Game",
            tags := ["En", "Fr", "Sp", "Jp", "Ko", "Ch"] } ∧
    (Metadata.from_stem "Some Game (En,Fr,Sp) (Jp, Ko, Ch)").map
      (fun m => (m.unit.localization.languages, m.unit.localization.regions,
        m.unit.entity.unhandled_tags)) =
      .ok ([Language.ENGLISH, Language.FRENCH, Language.KOREAN], [],
        ["Sp", "Jp", "Ch"]) :=
  ⟨rfl, rfl⟩

/-- C4: disc-number resolution tries digits, then the Roman-numeral table
(case-sensitively), then single letters, then Japanese counting words — but
the single-letter branch is 0-based (`ord(c) - ord('a')`): "a" resolves to
"0", not "1" as the claim states, so "Disc A" gets disc number 0. -/
theorem disc_number_letter_resolution :
    disc_number_to_int "12" = "12" ∧
    disc_number_to_int "a" = "0" ∧
    disc_number_to_int "b" = "1" ∧
    disc_number_to_int "z" = "25" ∧
    disc_number_to_int "I" = "1" ∧
    disc_number_to_int "V" = "5" ∧
    disc_number_to_int "X" = "10" ∧
    disc_number_to_int "i" = "8" ∧
    disc_number_to_int "ichi" = "1" ∧
    disc_number_to_int "yon" = "4" ∧
    disc_number_to_int "ju" = "10" ∧
    disc_number_to_int "bogus" = "" ∧
    (Metadata.from_stem "Title (Disc A)").map
      (fun m => m.unit.entity.variation.disc.number) = .ok (some 0) :=
  ⟨rfl, rfl, rfl, rfl, rfl, rfl, rfl, rfl, rfl, rfl, rfl, rfl, rfl⟩

/-- C5 counterexample: a second IDENTICAL revision tag also raises — the
non-duplicate-tolerant matcher does not compare values at all. -/
theorem identical_tags_still_conflict :
    Metadata.from_stem "Title (Rev 1) (Rev 1)" = .error .multipleTags :=
  rfl

/-- C5 (amended): a matcher call fails exactly when the parser matches, the
field is already set, and the matcher is either non-duplicate-tolerant
(identical or not) or sees a different value; "Rev 1"/"Rev 2" fails on the
second tag, equal resolved disc numbers coexist, different ones fail. -/
theorem tag_conflict_policy :
    (∀ (value cur : String) (allowDup : Bool),
      (∃ e, tagMatcherCall value cur allowDup = .error e) ↔
        (value ≠ "" ∧ cur ≠ "" ∧ (allowDup = false ∨ value ≠ cur))) ∧
    Metadata.from_stem "Title (Rev 1) (Rev 2)" = .error .multipleTags ∧
    (Metadata.from_stem "Title (Disc 1) (Disc I)").map
      (fun m => m.unit.entity.variation.disc.number) = .ok (some 1) ∧
    Metadata.from_stem "Title (Disc 1) (Disc 2)" = .error .conflictingValues := by
  refine ⟨?_, rfl, rfl, rfl⟩
  intro value cur allowDup
  unfold tagMatcherCall
  by_cases h1 : value = "" <;> by_cases h2 : cur = "" <;>
    cases allowDup <;> by_cases h3 : value = cur <;>
      simp [h1, h2, h3]

/-- The `Metadata` produced by classifying the bare stem "Game". -/
def mdGame (category : Option String) : Metadata :=
  { unit := { title := "Game",
              entity := { variation := { disc := { number := some 0 } } } },
    stem := "Game",
    category := category }

/-- C6 counterexample: a record with a `cloneofid` but no `id` whose
metadata is rejected by the filter is skipped BEFORE the id check, so
ingestion succeeds with an empty catalog instead of raising. -/
theorem clone_without_id_filtered_counterexample :
    DatFile.ingest [{ stem := "Game", cloneofid := "c1" }]
      (some fun _ => false) = .ok {} :=
  rfl

/-- C6 (amended): a record supplying `cloneofid` without `id` fails with
`MissingIdForClone` whenever it survives the metadata filter (the filter is
applied first, so a rejected record is skipped without the check). -/
theorem clone_without_id_rejected (st : IngestState) (r : DatRecord)
    (filt : Option (Metadata → Bool)) (md : Metadata)
    (hdesc : r.description = "" ∨ r.stem = r.description)
    (hfresh : memB r.stem (st.stem_to_metadata.map Prod.fst) = false)
    (hid : r.id = "") (hclone : r.cloneofid ≠ "")
    (hclass : Metadata.from_stem r.stem (some r.category) r.id r.cloneofid =
      .ok md)
    (hfilt : (filt.map fun f => !f md).getD false = false) :
    ingestStep filt st r = .error .missingIdForClone := by
  unfold ingestStep
  have hd : ¬(¬r.description = "" ∧ ¬r.stem = r.description) := by
    rcases hdesc with h | h
    · exact fun hc => hc.1 h
    · exact fun hc => hc.2 h
  rw [hclass]
  simp [hd, hfresh, hid, hclone, hfilt, Bind.bind, Except.bind]
  rfl

theorem clone_without_id_rejected_witness :
    ingestStep (some fun _ => true) {}
      { stem := "Game", cloneofid := "c1" } = .error .missingIdForClone :=
  clone_without_id_rejected {} { stem := "Game", cloneofid := "c1" }
    (some fun _ => true) (mdGame (some ""))
    (Or.inl rfl) rfl rfl (by decide) rfl rfl

/-- C8: the tokenizer succeeds exactly when the stem's bracket events form a
flat sequence of matched open/close pairs; nesting, closing with no open
group, a mismatched closer, and an unterminated group each raise the
corresponding error. -/
theorem tokenizer_bracket_wellformedness :
    (∀ stem : String,
      (∃ si, StemInfo.from_stem stem = .ok si) ↔
        balanced (bevents (scan stem.data)) = true) ∧
    StemInfo.from_stem "(a(b)c)" = .error .nestedGroups ∧
    StemInfo.from_stem "b)" = .error .groupClosedNoneOpen ∧
    StemInfo.from_stem "[a)" = .error .mismatchedClose ∧
    StemInfo.from_stem "(a" = .error .unterminatedGroup ∧
    StemInfo.from_stem "Game (USA) [b]" =
      .ok { title := "Game", tags := ["USA", "b"] } := by
  refine ⟨?_, rfl, rfl, rfl, rfl, rfl⟩
  intro stem
  unfold StemInfo.from_stem balanced
  rw [except_map_ok_iff]
  exact stemLoop_ok_iff (scan stem.data) none [] [] []

/-- C9: an opening parenthesis immediately followed by `^^;` is never a
bracket opener — the kaomoji stem tokenizes with an empty tag list, and for
every continuation the scanner emits a text segment starting at the `(`
rather than an open event. -/
theorem kaomoji_never_opens :
    StemInfo.from_stem "ok(^^; cool" =
      .ok { title := "ok(^^; cool", tags := [] } ∧
    (∀ cs : List Char, ∃ t rest,
      scan ('(' :: '^' :: '^' :: ';' :: cs) = .seg ('(' :: t) :: rest) := by
  constructor
  · rfl
  · intro cs
    have h1 : scan ('(' :: '^' :: '^' :: ';' :: cs) =
        scanAux ['('] ('^' :: '^' :: ';' :: cs) := by
      simp [scan, scanAux, isSep, isWs, isKao]
    obtain ⟨t, rest, ht⟩ :=
      scanAux_text_head ('^' :: '^' :: ';' :: cs) ['('] (by simp)
    exact ⟨t, rest, by rw [h1, ht]; rfl⟩

/-- C10: `Metadata.from_stem` accepts `id` and `cloneofid` arguments but
never stores them — every successfully constructed record carries empty
`id` and `cloneofid` fields. -/
theorem from_stem_ignores_ids (stem : String) (category : Option String)
    (id cloneofid : String) (md : Metadata)
    (h : Metadata.from_stem stem category id cloneofid = .ok md) :
    md.id = "" ∧ md.cloneofid = "" := by
  unfold Metadata.from_stem at h
  rcases hsi : StemInfo.from_stem stem with e | si
  · rw [hsi] at h
    simp [Bind.bind, Except.bind] at h
  · rw [hsi] at h
    simp only [Bind.bind, Except.bind] at h
    rcases hcl : classifyLoop {} [] [] [] si.tags with e | q
    · rw [hcl] at h
      simp at h
    · obtain ⟨st, langs, regs, unh⟩ := q
      rw [hcl] at h
      simp only [Pure.pure, Except.pure, Except.ok.injEq] at h
      rw [← h]
      exact ⟨rfl, rfl⟩

theorem from_stem_ignores_ids_witness :
    (mdGame (some "c")).id = "" ∧ (mdGame (some "c")).cloneofid = "" :=
  from_stem_ignores_ids "Game" (some "c") "x" "y" (mdGame (some "c")) rfl

end DatFileFilter
